import Mathlib

/-!
Shallow embedding of the GHFD flip-analysis engine: the flip matcher and
investor aggregator of `src/analyzer.py` (`FlipAnalyzer.identify_flips`,
`FlipAnalyzer.analyze_investors`) and the outreach ranking of
`src/exporter.py` (`InvestorExporter.generate_contact_list`).

Modelling conventions:
* A pandas DataFrame is a list of records, one record per row.
* Dates are day numbers (`Int`); `(d2 - d1).days` becomes integer subtraction.
* Prices are exact rationals.  A missing numeric field (NaN in pandas) is
  `none`, and every IEEE comparison against NaN is false.  The decimal
  literals `0.4`/`0.3` of the source are the exact rationals `4/10`/`3/10`.
* A `roi` of `none` marks a value that is not a finite number: the `roi`
  division in the source is unguarded, and a zero buy price makes
  `profit / buy_price` an IEEE infinity under numpy (a warning, not an
  exception).  `omean` mirrors the pandas column mean, which is itself
  non-finite whenever a non-finite entry is present.
* `groupby` enumerates its keys in ascending order (pandas sorts group
  keys); Python strings compare lexicographically by code point, i.e. by
  their character list `String.data`.
* `sort_values` is modelled as an insertion sort.  The program's default
  numpy quicksort is unstable on larger arrays, so the relative order of
  rows tied on the sort key is not a guarantee of the program; no general
  statement below asserts a tie order — only sortedness in the key and the
  multiset of rows, which every sort kind yields.  The one concrete
  evaluation that exhibits a tie order (`C6_counterexample`) is a two-row
  frame, where numpy falls back to a stable small-array insertion sort and
  produces exactly the modelled order.
* File output and logging are I/O presentation and are not modelled; the
  value of `generate_contact_list` is the contents of its `contact_df`.
-/

namespace GHFD

attribute [local semireducible] Rat.mul Rat.inv Rat.add Rat.sub

/-- The four flip thresholds; `FlipAnalyzer.__init__` defaults them to
30, 365, 70000, 150000. -/
structure Config where
  min_hold_days : Int
  max_hold_days : Int
  min_profit : Rat
  max_profit : Rat
deriving DecidableEq

/-- The default configuration of `FlipAnalyzer.__init__`. -/
def defaultConfig : Config :=
  { min_hold_days := 30, max_hold_days := 365, min_profit := 70000, max_profit := 150000 }

/-- One row of the input property-sales frame.  `sale_price` is `none` when
the field is absent from the record (a pandas NaN). -/
structure Transaction where
  property_id : String
  address : String
  sale_date : Int
  sale_price : Option Rat
  buyer : String
  seller : String
  county : String
deriving DecidableEq

/-- One row of the flips frame built by `FlipAnalyzer.identify_flips`. -/
structure Flip where
  property_id : String
  address : String
  buy_date : Int
  buy_price : Rat
  buyer : String
  sell_date : Int
  sell_price : Rat
  seller : String
  hold_days : Int
  profit : Rat
  roi : Option Rat
  county : String
deriving DecidableEq

/-- The body of the inner loop of `identify_flips` for one consecutive pair
`(buy, sell)`: compute `hold_days` and `profit`, keep the pair only when both
configured ranges hold, and build the flip row.  A missing `sale_price` makes
`profit` NaN, every range comparison on NaN is false, and no row is appended
(the source computes the NaN and lets the filter reject it; matching on
presence first yields the same rows).  The `roi` division is unguarded in the
source; a zero buy price gives a non-finite value (`none`). -/
def flipOfPair (cfg : Config) (property_id : String) :
    Transaction × Transaction → Option Flip
  | (buy, sell) =>
  let hold_days : Int := sell.sale_date - buy.sale_date
  match buy.sale_price, sell.sale_price with
  | some bp, some sp =>
    let profit := sp - bp
    if cfg.min_hold_days ≤ hold_days ∧ hold_days ≤ cfg.max_hold_days ∧
        cfg.min_profit ≤ profit ∧ profit ≤ cfg.max_profit then
      some { property_id := property_id, address := buy.address,
             buy_date := buy.sale_date, buy_price := bp, buyer := buy.buyer,
             sell_date := sell.sale_date, sell_price := sp, seller := sell.seller,
             hold_days := hold_days, profit := profit,
             roi := if bp = 0 then none else some (profit / bp * 100),
             county := buy.county }
    else none
  | _, _ => none

/-- The keys of `df.groupby('property_id')`, in ascending key order. -/
def propertyIds (df : List Transaction) : List String :=
  List.insertionSort (fun a b => a.data ≤ b.data) ((df.map (·.property_id)).dedup)

/-- One group of `df.groupby('property_id')`, sorted ascending by sale date
(`group.sort_values('sale_date')`). -/
def sortedGroup (df : List Transaction) (pid : String) : List Transaction :=
  List.insertionSort (fun a b => a.sale_date ≤ b.sale_date)
    (df.filter (fun t => t.property_id == pid))

/-- `FlipAnalyzer.identify_flips`: for each property group, sorted by sale
date, visit each consecutive pair of transactions (`group.iloc[i]`,
`group.iloc[i + 1]`) and append the pairs that meet the hold-days and profit
ranges. -/
def identify_flips (cfg : Config) (df : List Transaction) : List Flip :=
  if df.isEmpty then []
  else
    (propertyIds df).flatMap (fun pid =>
      let g := sortedGroup df pid
      if g.length < 2 then []
      else (g.zip g.tail).filterMap (flipOfPair cfg pid))

/-- The keys of `flips_df.groupby('buyer')`, in ascending key order. -/
def buyers (flips : List Flip) : List String :=
  List.insertionSort (fun a b => a.data ≤ b.data) ((flips.map (·.buyer)).dedup)

/-- `some` the list of values when every entry is present, `none` otherwise. -/
def seqOpt : List (Option Rat) → Option (List Rat)
  | [] => some []
  | none :: _ => none
  | some q :: l => (seqOpt l).map (fun vs => q :: vs)

/-- The pandas mean of a numeric column: finite exactly when every entry is a
finite number, and then the arithmetic mean. -/
def omean (l : List (Option Rat)) : Option Rat :=
  (seqOpt l).map (fun vs => vs.sum / (vs.length : Rat))

/-- One row of the aggregation frame of `FlipAnalyzer.analyze_investors`. -/
structure InvestorStats where
  investor_name : String
  total_flips : Nat
  total_profit : Rat
  avg_profit_per_flip : Rat
  avg_hold_days : Rat
  avg_roi : Option Rat
deriving DecidableEq

/-- The `groupby('buyer').agg(...)` row for one buyer: count of rows, sum and
mean of `profit`, mean of `hold_days`, mean of `roi`. -/
def statsFor (flips : List Flip) (b : String) : InvestorStats :=
  let grp := flips.filter (fun f => f.buyer == b)
  { investor_name := b,
    total_flips := grp.length,
    total_profit := (grp.map (·.profit)).sum,
    avg_profit_per_flip := (grp.map (·.profit)).sum / (grp.length : Rat),
    avg_hold_days := (grp.map (fun f => (f.hold_days : Rat))).sum / (grp.length : Rat),
    avg_roi := omean (grp.map (·.roi)) }

/-- `FlipAnalyzer.analyze_investors`: aggregate by buyer, then
`sort_values('total_flips', ascending=False)` — descending flip count is the
only sort key. -/
def analyze_investors (flips : List Flip) : List InvestorStats :=
  if flips.isEmpty then []
  else
    List.insertionSort (fun a b => b.total_flips ≤ a.total_flips)
      ((buyers flips).map (statsFor flips))

/-- One row of `contact_df` in `InvestorExporter.generate_contact_list`.
The contact-info enrichment fields (`business_type`, `likely_location`,
`flip_counties`, `property_types`) are name/address string classification and
are not needed by any verified statement; they are omitted from the row. -/
structure ContactProfile where
  investor_name : String
  total_flips : Nat
  total_profit : Rat
  avg_hold_days : Rat
  avg_roi : Option Rat
  recent_property_count : Nat
  first_flip_date : Option Int
  last_flip_date : Option Int
  estimated_yearly_volume : Rat
  likely_loan_needs : String
  priority_score : Rat
deriving DecidableEq

/-- The priority-score formula of `generate_contact_list`:
`total_flips * 0.4 + total_profit * 0.3 + estimated_yearly_volume * 0.3`. -/
def priority_score (total_flips : Nat) (total_profit estimated_yearly_volume : Rat) : Rat :=
  (total_flips : Rat) * (4 / 10) + total_profit * (3 / 10) +
    estimated_yearly_volume * (3 / 10)

/-- One enriched investor profile of `generate_contact_list`, before the
`priority_score` column is assigned (the dict built in the `iterrows` loop has
no such key yet; the placeholder is overwritten by `withScore`). -/
def mkProfile (flips : List Flip) (inv : InvestorStats) : ContactProfile :=
  let investor_flips := flips.filter (fun f => f.buyer == inv.investor_name)
  { investor_name := inv.investor_name,
    total_flips := inv.total_flips,
    total_profit := inv.total_profit,
    avg_hold_days := inv.avg_hold_days,
    avg_roi := inv.avg_roi,
    recent_property_count := investor_flips.length,
    first_flip_date := (investor_flips.map (·.buy_date)).min?,
    last_flip_date := (investor_flips.map (·.sell_date)).max?,
    estimated_yearly_volume :=
      if 0 < inv.avg_hold_days then inv.total_profit * 12 / inv.avg_hold_days else 0,
    likely_loan_needs := if 5 < inv.total_flips then "HIGH" else "MEDIUM",
    priority_score := 0 }

/-- The `contact_df['priority_score'] = ...` column assignment. -/
def withScore (p : ContactProfile) : ContactProfile :=
  { p with priority_score :=
      priority_score p.total_flips p.total_profit p.estimated_yearly_volume }

/-- The sorted rows of `contact_df`
(`contact_df.sort_values('priority_score', ascending=False)`). -/
def contact_rows (investors : List InvestorStats) (flips : List Flip) :
    List ContactProfile :=
  List.insertionSort (fun a b => b.priority_score ≤ a.priority_score)
    ((investors.map (mkProfile flips)).map withScore)

/-- A pandas exception, with the offending column label. -/
inductive PandasError where
  | keyError : String → PandasError
deriving DecidableEq

/-- `InvestorExporter.generate_contact_list`, as the contents of its
`contact_df`.  On an empty investor frame the `iterrows` loop body never runs,
`pd.DataFrame([])` has no columns at all, and the very first column access
`contact_df['total_flips']` in the priority-score assignment raises
`KeyError`.  File writing and the returned filename are I/O presentation and
are not modelled. -/
def generate_contact_list (investors : List InvestorStats) (flips : List Flip) :
    Except PandasError (List ContactProfile) :=
  if investors.isEmpty then .error (.keyError "total_flips")
  else .ok (contact_rows investors flips)

/-- The buy-side fields a flip row copies from its buy transaction. -/
def buyProj (t : Transaction) : String × Int × Option Rat × String × String × String :=
  (t.property_id, t.sale_date, t.sale_price, t.buyer, t.address, t.county)

/-- The buy-side fields of a flip row, in the shape of `buyProj`. -/
def flipBuyOf (f : Flip) : String × Int × Option Rat × String × String × String :=
  (f.property_id, f.buy_date, some f.buy_price, f.buyer, f.address, f.county)

/-- The sell-side fields a flip row copies from its sell transaction. -/
def sellProj (t : Transaction) : String × Int × Option Rat × String :=
  (t.property_id, t.sale_date, t.sale_price, t.seller)

/-- The sell-side fields of a flip row, in the shape of `sellProj`. -/
def flipSellOf (f : Flip) : String × Int × Option Rat × String :=
  (f.property_id, f.sell_date, some f.sell_price, f.seller)

/-! ### Concrete example inputs

Small concrete frames used by the counterexamples and witnesses below.
Dates are day numbers, so e.g. 120 days apart means `hold_days = 120`. -/

/-- Property P1, day 0: bought by Flipper for 100000. -/
def t0C1 : Transaction :=
  { property_id := "P1", address := "1 Main St, Acworth, GA", sale_date := 0,
    sale_price := some 100000, buyer := "Flipper", seller := "Owner0", county := "Cobb" }

/-- Property P1, day 10: an intervening transfer for 100. -/
def t1C1 : Transaction :=
  { property_id := "P1", address := "1 Main St, Acworth, GA", sale_date := 10,
    sale_price := some 100, buyer := "Mid", seller := "Flipper", county := "Cobb" }

/-- Property P1, day 100: sold for 180000.  Against `t0C1` this is a
qualifying pair (hold 100, profit 80000), but it is not adjacent to it. -/
def t2C1 : Transaction :=
  { property_id := "P1", address := "1 Main St, Acworth, GA", sale_date := 100,
    sale_price := some 180000, buyer := "End", seller := "Mid", county := "Cobb" }

/-- Property P5, day 0: a well-formed buy for 100000. -/
def tM1 : Transaction :=
  { property_id := "P5", address := "5 Elm St, Smyrna, GA", sale_date := 0,
    sale_price := some 100000, buyer := "MBuyer", seller := "S", county := "Cobb" }

/-- Property P5, day 100: a malformed record — `sale_price` is absent. -/
def tM2 : Transaction :=
  { property_id := "P5", address := "5 Elm St, Smyrna, GA", sale_date := 100,
    sale_price := none, buyer := "B", seller := "MBuyer", county := "Cobb" }

/-- `tM2` with the missing price filled in with a qualifying value. -/
def tM2fixed : Transaction := { tM2 with sale_price := some 180000 }

/-- Property P3, day 0: a buy with a negative recorded price. -/
def tN0 : Transaction :=
  { property_id := "P3", address := "3 Elm St, Smyrna, GA", sale_date := 0,
    sale_price := some (-10000), buyer := "NegBuyer", seller := "S", county := "Cobb" }

/-- Property P3, day 100: the resale for 80000 (profit 90000, in range). -/
def tN1 : Transaction :=
  { property_id := "P3", address := "3 Elm St, Smyrna, GA", sale_date := 100,
    sale_price := some 80000, buyer := "B", seller := "NegBuyer", county := "Cobb" }

/-- Property P4, day 0: a buy with a zero recorded price. -/
def tZ0 : Transaction :=
  { property_id := "P4", address := "4 Elm St, Smyrna, GA", sale_date := 0,
    sale_price := some 0, buyer := "ZeroBuyer", seller := "S", county := "Cobb" }

/-- Property P4, day 100: the resale for 80000 (profit 80000, in range). -/
def tZ1 : Transaction :=
  { property_id := "P4", address := "4 Elm St, Smyrna, GA", sale_date := 100,
    sale_price := some 80000, buyer := "B", seller := "ZeroBuyer", county := "Cobb" }

/-- Property P2, day 0: bought by Acme LLC for 300000. -/
def tC5a : Transaction :=
  { property_id := "P2", address := "2 Oak St, Marietta, GA", sale_date := 0,
    sale_price := some 300000, buyer := "Acme LLC", seller := "S0", county := "Cobb" }

/-- Property P2, day 120: resold for 400000. -/
def tC5b : Transaction :=
  { property_id := "P2", address := "2 Oak St, Marietta, GA", sale_date := 120,
    sale_price := some 400000, buyer := "B2", seller := "Acme LLC", county := "Cobb" }

/-- The flip row `identify_flips` emits for `[tC5a, tC5b]`. -/
def fC5 : Flip :=
  { property_id := "P2", address := "2 Oak St, Marietta, GA", buy_date := 0,
    buy_price := 300000, buyer := "Acme LLC", sell_date := 120, sell_price := 400000,
    seller := "Acme LLC", hold_days := 120, profit := 100000,
    roi := some (100 / 3), county := "Cobb" }

/-- A single flip by Alice with profit 70000. -/
def fAliceC6 : Flip :=
  { property_id := "PA", address := "7 A St, Austell, GA", buy_date := 0, buy_price := 200000,
    buyer := "Alice", sell_date := 100, sell_price := 270000, seller := "X",
    hold_days := 100, profit := 70000, roi := some 35, county := "Cobb" }

/-- A single flip by Bob with profit 150000 — more than Alice's. -/
def fBobC6 : Flip :=
  { property_id := "PB", address := "8 B St, Austell, GA", buy_date := 0, buy_price := 300000,
    buyer := "Bob", sell_date := 100, sell_price := 450000, seller := "X",
    hold_days := 100, profit := 150000, roi := some 50, county := "Cobb" }

/-- A single flip by Carol, roi 40. -/
def fC7 : Flip :=
  { property_id := "PC", address := "9 C St, Roswell, GA", buy_date := 0, buy_price := 200000,
    buyer := "Carol", sell_date := 60, sell_price := 280000, seller := "Y",
    hold_days := 60, profit := 80000, roi := some 40, county := "Fulton" }

/-- An aggregated investor: 3 flips, profit 300000, average hold 100 days. -/
def invC8 : InvestorStats :=
  { investor_name := "Acme LLC", total_flips := 3, total_profit := 300000,
    avg_profit_per_flip := 100000, avg_hold_days := 100, avg_roi := some 40 }

/-- The contact row `generate_contact_list [invC8] []` produces:
`estimated_yearly_volume = 300000 * 12 / 100 = 36000` and
`priority_score = 3 * 0.4 + 300000 * 0.3 + 36000 * 0.3 = 504006/5`. -/
def cC8 : ContactProfile :=
  { investor_name := "Acme LLC", total_flips := 3, total_profit := 300000,
    avg_hold_days := 100, avg_roi := some 40, recent_property_count := 0,
    first_flip_date := none, last_flip_date := none,
    estimated_yearly_volume := 36000, likely_loan_needs := "MEDIUM",
    priority_score := 504006 / 5 }

/-- Property P6, day 0: first sale, to X1. -/
def u0C10 : Transaction :=
  { property_id := "P6", address := "6 Pine St, Dallas, GA", sale_date := 0,
    sale_price := some 100000, buyer := "X1", seller := "S0", county := "Paulding" }

/-- Property P6, day 60: X1 resells to X2 (profit 80000 — a flip). -/
def u1C10 : Transaction :=
  { property_id := "P6", address := "6 Pine St, Dallas, GA", sale_date := 60,
    sale_price := some 180000, buyer := "X2", seller := "X1", county := "Paulding" }

/-- Property P6, day 130: X2 resells to X3 (profit 80000 — a second flip). -/
def u2C10 : Transaction :=
  { property_id := "P6", address := "6 Pine St, Dallas, GA", sale_date := 130,
    sale_price := some 260000, buyer := "X3", seller := "X2", county := "Paulding" }

/-! ### Helper lemmas -/

/-- Membership in the list of consecutive pairs, by position. -/
theorem mem_zip_tail {α : Type _} {l : List α} {p : α × α} :
    p ∈ l.zip l.tail ↔ ∃ i : Nat, l[i]? = some p.1 ∧ l[i + 1]? = some p.2 := by
  obtain ⟨x, y⟩ := p
  induction l with
  | nil => simp
  | cons a t ih =>
    cases t with
    | nil => simp
    | cons b t2 =>
      rw [List.tail_cons, List.zip_cons_cons, List.mem_cons]
      constructor
      · rintro (h | h)
        · injection h with hx hy
          exact ⟨0, by simp [hx], by simp [hy]⟩
        · have h' : (x, y) ∈ (b :: t2).zip (b :: t2).tail := by
            rw [List.tail_cons]; exact h
          rcases ih.mp h' with ⟨i, h1, h2⟩
          exact ⟨i + 1, by simpa using h1, by simpa using h2⟩
      · rintro ⟨i, h1, h2⟩
        cases i with
        | zero =>
          simp only [List.getElem?_cons_zero, List.getElem?_cons_succ,
            Option.some.injEq] at h1 h2
          left
          rw [← h1, ← h2]
        | succ j =>
          right
          have hm : (x, y) ∈ (b :: t2).zip (b :: t2).tail :=
            ih.mpr ⟨j, by simpa using h1, by simpa using h2⟩
          rw [List.tail_cons] at hm
          exact hm

/-- The two degenerate-group guards of `identify_flips` are redundant: a
group with fewer than two rows has no consecutive pairs at all. -/
theorem identify_flips_eq (cfg : Config) (df : List Transaction) :
    identify_flips cfg df =
      (propertyIds df).flatMap (fun pid =>
        ((sortedGroup df pid).zip (sortedGroup df pid).tail).filterMap
          (flipOfPair cfg pid)) := by
  unfold identify_flips
  split
  · next h =>
    rw [List.isEmpty_iff.mp h]
    rfl
  · next h =>
    refine congrArg _ (funext fun pid => ?_)
    by_cases hg : (sortedGroup df pid).length < 2
    · rw [if_pos hg]
      rcases g : sortedGroup df pid with _ | ⟨a, _ | ⟨c, t2⟩⟩
      · rfl
      · rfl
      · rw [g] at hg
        simp only [List.length_cons] at hg
        omega
    · rw [if_neg hg]

/-- What it takes for the inner loop to append a flip row: both prices
present, both ranges satisfied, and the row is exactly the dict the source
builds. -/
theorem flipOfPair_mk {cfg : Config} {pid : String} {a b : Transaction} {bp sp : Rat}
    (ha : a.sale_price = some bp) (hb : b.sale_price = some sp)
    (h1 : cfg.min_hold_days ≤ b.sale_date - a.sale_date)
    (h2 : b.sale_date - a.sale_date ≤ cfg.max_hold_days)
    (h3 : cfg.min_profit ≤ sp - bp) (h4 : sp - bp ≤ cfg.max_profit) :
    flipOfPair cfg pid (a, b) =
      some { property_id := pid, address := a.address, buy_date := a.sale_date,
             buy_price := bp, buyer := a.buyer, sell_date := b.sale_date,
             sell_price := sp, seller := b.seller,
             hold_days := b.sale_date - a.sale_date, profit := sp - bp,
             roi := if bp = 0 then none else some ((sp - bp) / bp * 100),
             county := a.county } := by
  simp only [flipOfPair, ha, hb]
  rw [if_pos ⟨h1, h2, h3, h4⟩]

/-- Inversion of the inner loop: every appended flip row comes from a pair
with both prices present, copies its fields from that pair, and satisfies
both configured ranges. -/
theorem flipOfPair_some_inv {cfg : Config} {pid : String} {a b : Transaction} {f : Flip}
    (h : flipOfPair cfg pid (a, b) = some f) :
    (cfg.min_hold_days ≤ f.hold_days ∧ f.hold_days ≤ cfg.max_hold_days ∧
      cfg.min_profit ≤ f.profit ∧ f.profit ≤ cfg.max_profit) ∧
    f.property_id = pid ∧
    a.sale_price = some f.buy_price ∧ b.sale_price = some f.sell_price ∧
    f.buy_date = a.sale_date ∧ f.sell_date = b.sale_date ∧
    f.buyer = a.buyer ∧ f.seller = b.seller ∧
    f.address = a.address ∧ f.county = a.county := by
  rcases ha : a.sale_price with _ | bp
  · simp [flipOfPair, ha] at h
  rcases hb : b.sale_price with _ | sp
  · simp [flipOfPair, ha, hb] at h
  simp only [flipOfPair, ha, hb] at h
  split at h
  · next hcond =>
    obtain rfl := Option.some.inj h
    exact ⟨⟨hcond.1, hcond.2.1, hcond.2.2.1, hcond.2.2.2⟩, rfl, rfl, rfl,
      rfl, rfl, rfl, rfl, rfl, rfl⟩
  · exact absurd h (by simp)

/-- Characterization of `identify_flips` output: a flip row is emitted
exactly when it arises, via the inner-loop body, from two transactions at
consecutive positions `i`, `i + 1` of one property's date-sorted group. -/
theorem mem_identify_flips_iff {cfg : Config} {df : List Transaction} {f : Flip} :
    f ∈ identify_flips cfg df ↔
      ∃ pid ∈ propertyIds df, ∃ i : Nat, ∃ buy sell : Transaction,
        (sortedGroup df pid)[i]? = some buy ∧
        (sortedGroup df pid)[i + 1]? = some sell ∧
        flipOfPair cfg pid (buy, sell) = some f := by
  rw [identify_flips_eq, List.mem_flatMap]
  constructor
  · rintro ⟨pid, hpid, hmem⟩
    rcases List.mem_filterMap.mp hmem with ⟨pr, hpr, hfp⟩
    obtain ⟨buy, sell⟩ := pr
    rcases mem_zip_tail.mp hpr with ⟨i, h1, h2⟩
    exact ⟨pid, hpid, i, buy, sell, h1, h2, hfp⟩
  · rintro ⟨pid, hpid, i, buy, sell, h1, h2, hfp⟩
    exact ⟨pid, hpid, List.mem_filterMap.mpr
      ⟨(buy, sell), mem_zip_tail.mpr ⟨i, h1, h2⟩, hfp⟩⟩

/-! ### Claims -/

/-- Claim C1, counterexample.  On property P1 the non-adjacent pair
`(t0C1, t2C1)` satisfies the inner-loop filter (the loop body itself would
emit a row for it), yet `identify_flips` emits nothing for the three-row
frame: only consecutive pairs are ever visited, so the claimed all-pairs
enumeration does not happen. -/
theorem C1_counterexample :
    identify_flips defaultConfig [t0C1, t1C1, t2C1] = [] ∧
      flipOfPair defaultConfig "P1" (t0C1, t2C1) ≠ none := by
  constructor
  · decide
  · decide

/-- Claim C1, amended.  Within each `property_id` partition sorted ascending
by `sale_date`, `identify_flips` pairs exactly the transactions at
consecutive positions `i`, `i + 1` — never pairs separated by an intervening
transaction — and emits precisely the consecutive pairs accepted by the
hold-days/profit filter. -/
theorem C1_adjacent_pairs_only (cfg : Config) (df : List Transaction) (f : Flip) :
    f ∈ identify_flips cfg df ↔
      ∃ pid ∈ propertyIds df, ∃ i : Nat, ∃ buy sell : Transaction,
        (sortedGroup df pid)[i]? = some buy ∧
        (sortedGroup df pid)[i + 1]? = some sell ∧
        flipOfPair cfg pid (buy, sell) = some f :=
  mem_identify_flips_iff

/-- Claim C2.  `identify_flips` and `aggregate` do return empty collections
on empty input, but the third entry point does not: on zero investors the
`rank` stage builds a column-less `pd.DataFrame([])` and its
`priority_score` assignment reads the absent `total_flips` column, raising
`KeyError` instead of returning an empty collection. -/
theorem C2_empty_inputs :
    identify_flips defaultConfig [] = [] ∧ analyze_investors [] = [] ∧
      generate_contact_list [] [] = Except.error (PandasError.keyError "total_flips") :=
  ⟨rfl, rfl, rfl⟩

/-- Claim C3, counterexample.  `tM2` lacks its required `sale_price`, yet
`identify_flips` raises nothing and returns normally with no rows — the
malformed record is silently dropped (with the price present, the same
frame yields a flip). -/
theorem C3_counterexample :
    identify_flips defaultConfig [tM1, tM2] = [] ∧
      identify_flips defaultConfig [tM1, tM2fixed] ≠ [] := by
  constructor
  · decide
  · decide

/-- Claim C3, amended.  `identify_flips` performs no validation and raises
no `ValidationError`: a transaction with a missing `sale_price` is silently
ignored — every candidate pair it participates in produces NaN profit,
fails the range filter, and contributes no flip row. -/
theorem C3_missing_price_silently_dropped (cfg : Config) (pid : String)
    (a b : Transaction) (h : a.sale_price = none ∨ b.sale_price = none) :
    flipOfPair cfg pid (a, b) = none := by
  rcases h with h | h
  · simp [flipOfPair, h]
  · rcases ha : a.sale_price with _ | bp <;> simp [flipOfPair, ha, h]

/-- Witness for the amended C3 at a concrete malformed record. -/
theorem C3_witness :
    tM2.sale_price = none ∧ flipOfPair defaultConfig "P5" (tM1, tM2) = none :=
  ⟨rfl, C3_missing_price_silently_dropped defaultConfig "P5" tM1 tM2 (Or.inr rfl)⟩

/-- Claim C4, counterexample.  The buy of property P3 has `sale_price`
−10000 ≤ 0, the pair meets both ranges, and `identify_flips` does emit a
flip row for it — the negative buy price is divided into, giving roi −900. -/
theorem C4_counterexample :
    (identify_flips defaultConfig [tN0, tN1]).map
        (fun f => (f.buy_price, f.sell_price, f.hold_days, f.profit, f.roi)) =
      [((-10000 : Rat), (80000 : Rat), (100 : Int), (90000 : Rat),
        some (-900 : Rat))] := by
  decide

/-- Claim C4, amended.  `identify_flips` applies no buy-price guard at all:
a consecutive pair that meets the hold-days and profit ranges is emitted as
a Flip even when the buy price is zero or negative.  A negative buy price is
divided into, yielding a finite (negative-denominator) roi; a zero buy price
is divided into as well, yielding a non-finite roi (an IEEE infinity under
numpy) rather than an exception. -/
theorem C4_no_buy_price_guard (cfg : Config) (df : List Transaction) (pid : String)
    (i : Nat) (a b : Transaction) (bp sp : Rat)
    (hpid : pid ∈ propertyIds df)
    (ha : (sortedGroup df pid)[i]? = some a)
    (hb : (sortedGroup df pid)[i + 1]? = some b)
    (hap : a.sale_price = some bp) (hbp : b.sale_price = some sp)
    (_hneg : bp ≤ 0)
    (h1 : cfg.min_hold_days ≤ b.sale_date - a.sale_date)
    (h2 : b.sale_date - a.sale_date ≤ cfg.max_hold_days)
    (h3 : cfg.min_profit ≤ sp - bp) (h4 : sp - bp ≤ cfg.max_profit) :
    ∃ f ∈ identify_flips cfg df, f.buy_price = bp ∧
      (bp = 0 → f.roi = none) ∧
      (bp ≠ 0 → f.roi = some ((sp - bp) / bp * 100)) := by
  refine ⟨_, mem_identify_flips_iff.mpr
    ⟨pid, hpid, i, a, b, ha, hb, flipOfPair_mk hap hbp h1 h2 h3 h4⟩, rfl, ?_, ?_⟩
  · intro hz
    simp [hz]
  · intro hz
    simp [hz]

/-- Witness for the amended C4 at a concrete zero buy price. -/
theorem C4_witness :
    ∃ f ∈ identify_flips defaultConfig [tZ0, tZ1], f.buy_price = 0 ∧
      ((0 : Rat) = 0 → f.roi = none) ∧
      ((0 : Rat) ≠ 0 → f.roi = some ((80000 - 0) / 0 * 100)) :=
  C4_no_buy_price_guard defaultConfig [tZ0, tZ1] "P4" 0 tZ0 tZ1 0 80000
    (by decide) (by decide) (by decide) rfl rfl (by decide)
    (by decide) (by decide) (by decide) (by decide)

/-- Claim C5.  Every flip row `identify_flips` emits satisfies both
configured ranges: `min_hold_days ≤ hold_days ≤ max_hold_days` and
`min_profit ≤ profit ≤ max_profit` — they are filter conditions, and a row
violating either is never constructed. -/
theorem C5_range_invariant (cfg : Config) (df : List Transaction) (f : Flip)
    (h : f ∈ identify_flips cfg df) :
    cfg.min_hold_days ≤ f.hold_days ∧ f.hold_days ≤ cfg.max_hold_days ∧
      cfg.min_profit ≤ f.profit ∧ f.profit ≤ cfg.max_profit := by
  rcases mem_identify_flips_iff.mp h with ⟨pid, _, i, buy, sell, _, _, hfp⟩
  exact (flipOfPair_some_inv hfp).1

/-- Witness for C5 on a concrete emitted flip. -/
theorem C5_witness :
    defaultConfig.min_hold_days ≤ fC5.hold_days ∧
      fC5.hold_days ≤ defaultConfig.max_hold_days ∧
      defaultConfig.min_profit ≤ fC5.profit ∧
      fC5.profit ≤ defaultConfig.max_profit :=
  C5_range_invariant defaultConfig [tC5a, tC5b] fC5 (by decide)

/-- Claim C6, counterexample.  Alice and Bob are tied at one flip each and
Bob's `total_profit` (150000) exceeds Alice's (70000), yet `analyze_investors`
lists Alice first: the tie is not broken by descending `total_profit` as
claimed (the code sorts by `total_flips` alone). -/
theorem C6_counterexample :
    (analyze_investors [fBobC6, fAliceC6]).map
        (fun s => (s.investor_name, s.total_flips, s.total_profit)) =
      [("Alice", 1, (70000 : Rat)), ("Bob", 1, (150000 : Rat))] := by
  decide

/-- Claim C6, amended.  The aggregate output is sorted descending by
`total_flips` only — the single key of its `sort_values` call.  Neither
`total_profit` nor `investor_name` takes part in the order: rows tied on
`total_flips` are left in whatever relative order the sort produces (the
program's default numpy quicksort is unstable, so no tie order is
guaranteed), and the counterexample shows `total_profit` in particular is
no tiebreaker. -/
theorem C6_sorted_by_total_flips_only (flips : List Flip) :
    (analyze_investors flips).Pairwise
      (fun a b => b.total_flips ≤ a.total_flips) := by
  unfold analyze_investors
  split
  · simp
  · haveI : IsTotal InvestorStats (fun a b => b.total_flips ≤ a.total_flips) :=
      ⟨fun a b => le_total b.total_flips a.total_flips⟩
    haveI : IsTrans InvestorStats (fun a b => b.total_flips ≤ a.total_flips) :=
      ⟨fun _ _ _ h1 h2 => le_trans h2 h1⟩
    exact List.sorted_insertionSort _ _

/-- Sequencing a list of present values succeeds with the values. -/
theorem seqOpt_map_some (qs : List Rat) : seqOpt (qs.map some) = some qs := by
  induction qs with
  | nil => rfl
  | cons q t ih => simp [seqOpt, ih]

/-- Every aggregation row is the `groupby('buyer').agg` row of some buyer. -/
theorem mem_analyze_investors {flips : List Flip} {s : InvestorStats}
    (h : s ∈ analyze_investors flips) : ∃ b, s = statsFor flips b := by
  unfold analyze_investors at h
  split at h
  · simp at h
  · rcases List.mem_map.mp ((List.perm_insertionSort _ _).mem_iff.mp h) with ⟨b, _, rfl⟩
    exact ⟨b, rfl⟩

/-- Claim C7.  For every investor row of the aggregate stage, `avg_roi` is
the pandas mean of that investor's own per-flip `roi` column — and on finite
values that mean is the arithmetic mean, sum over count (not a ratio
reconstructed from aggregate profit and price sums). -/
theorem C7_avg_roi_is_mean_of_roi :
    (∀ (flips : List Flip) (s : InvestorStats), s ∈ analyze_investors flips →
      s.avg_roi =
        omean ((flips.filter (fun f => f.buyer == s.investor_name)).map Flip.roi)) ∧
    (∀ qs : List Rat, omean (qs.map some) = some (qs.sum / (qs.length : Rat))) := by
  constructor
  · intro flips s h
    rcases mem_analyze_investors h with ⟨b, rfl⟩
    rfl
  · intro qs
    simp [omean, seqOpt_map_some]

/-- Witness for C7 on a concrete one-flip investor. -/
theorem C7_witness :
    (statsFor [fC7] "Carol").avg_roi =
      omean (([fC7].filter
        (fun f => f.buyer == (statsFor [fC7] "Carol").investor_name)).map Flip.roi) :=
  C7_avg_roi_is_mean_of_roi.1 [fC7] (statsFor [fC7] "Carol") (by decide)

/-- Every contact row is the scored enrichment of some input investor row. -/
theorem contact_rows_mem {investors : List InvestorStats} {flips : List Flip}
    {c : ContactProfile} (h : c ∈ contact_rows investors flips) :
    ∃ inv ∈ investors, c = withScore (mkProfile flips inv) := by
  unfold contact_rows at h
  rcases List.mem_map.mp ((List.perm_insertionSort _ _).mem_iff.mp h) with ⟨p, hp, rfl⟩
  rcases List.mem_map.mp hp with ⟨inv, hinv, rfl⟩
  exact ⟨inv, hinv, rfl⟩

/-- Claim C8.  For every investor row the rank stage emits,
`estimated_yearly_volume` is `total_profit * 12 / avg_hold_days` when
`avg_hold_days > 0` and `0` otherwise — the positivity guard is applied
before the division. -/
theorem C8_estimated_yearly_volume (investors : List InvestorStats) (flips : List Flip)
    (cs : List ContactProfile) (hok : generate_contact_list investors flips = Except.ok cs)
    (c : ContactProfile) (hc : c ∈ cs) :
    c.estimated_yearly_volume =
      if 0 < c.avg_hold_days then c.total_profit * 12 / c.avg_hold_days else 0 := by
  unfold generate_contact_list at hok
  split at hok
  · exact absurd hok (by simp)
  · obtain rfl := Except.ok.inj hok
    rcases contact_rows_mem hc with ⟨inv, _, rfl⟩
    rfl

/-- Witness for C8 on a concrete investor (average hold 100 days). -/
theorem C8_witness :
    cC8.estimated_yearly_volume =
      if 0 < cC8.avg_hold_days then cC8.total_profit * 12 / cC8.avg_hold_days else 0 :=
  C8_estimated_yearly_volume [invC8] [] [cC8] rfl cC8 (by decide)

/-- Claim C9.  Every contact row's `priority_score` is
`total_flips * 0.4 + total_profit * 0.3 + estimated_yearly_volume * 0.3`,
and the formula is strictly increasing in `total_flips` when the other two
terms are held fixed. -/
theorem C9_priority_score_formula :
    (∀ (investors : List InvestorStats) (flips : List Flip) (cs : List ContactProfile),
      generate_contact_list investors flips = Except.ok cs → ∀ c ∈ cs,
        c.priority_score = (c.total_flips : Rat) * (4 / 10) +
          c.total_profit * (3 / 10) + c.estimated_yearly_volume * (3 / 10)) ∧
    (∀ (t1 t2 : Nat) (p e : Rat), t1 < t2 →
      priority_score t1 p e < priority_score t2 p e) := by
  constructor
  · intro investors flips cs hok c hc
    unfold generate_contact_list at hok
    split at hok
    · exact absurd hok (by simp)
    · obtain rfl := Except.ok.inj hok
      rcases contact_rows_mem hc with ⟨inv, _, rfl⟩
      rfl
  · intro t1 t2 p e h
    unfold priority_score
    have h4 : (t1 : Rat) * (4 / 10) < (t2 : Rat) * (4 / 10) :=
      mul_lt_mul_of_pos_right (by exact_mod_cast h) (by decide)
    exact add_lt_add_right (add_lt_add_right h4 (p * (3 / 10))) (e * (3 / 10))

/-- Witness for C9: the formula at a concrete row, and strict monotonicity
at concrete inputs. -/
theorem C9_witness :
    (cC8.priority_score = (cC8.total_flips : Rat) * (4 / 10) +
        cC8.total_profit * (3 / 10) + cC8.estimated_yearly_volume * (3 / 10)) ∧
      priority_score 1 5 7 < priority_score 2 5 7 :=
  ⟨C9_priority_score_formula.1 [invC8] [] [cC8] rfl cC8 (by decide),
   C9_priority_score_formula.2 1 2 5 7 (by decide)⟩

/-- Counting after `filterMap` is bounded by counting preimages. -/
theorem countP_filterMap_le_mem {α β : Type _} (h : α → Option β) (p : β → Bool)
    (q : α → Bool) (l : List α)
    (himp : ∀ x ∈ l, ∀ y, h x = some y → p y = true → q x = true) :
    (l.filterMap h).countP p ≤ l.countP q := by
  induction l with
  | nil => simp
  | cons a t ih =>
    have ih' := ih fun x hx y hy hp => himp x (List.mem_cons_of_mem _ hx) y hy hp
    cases hfa : h a with
    | none =>
      simp only [List.filterMap_cons, hfa, List.countP_cons]
      exact le_trans ih' (Nat.le_add_right _ _)
    | some b =>
      simp only [List.filterMap_cons, hfa, List.countP_cons]
      by_cases hpb : p b = true
      · have hqa := himp a (List.mem_cons_self _ _) b hfa hpb
        rw [if_pos hpb, if_pos hqa]
        omega
      · rw [if_neg hpb]
        exact le_trans ih' (Nat.le_add_right _ _)

/-- In a duplicate-free list where any two hits coincide, the count of hits
is at most one. -/
theorem countP_le_one_of_nodup {α : Type _} (p : α → Bool) {l : List α}
    (hnd : l.Nodup)
    (huniq : ∀ a ∈ l, ∀ b ∈ l, p a = true → p b = true → a = b) :
    l.countP p ≤ 1 := by
  induction l with
  | nil => simp
  | cons a t ih =>
    rw [List.countP_cons]
    by_cases hpa : p a = true
    · have ht : t.countP p = 0 := by
        rw [List.countP_eq_zero]
        intro b hb hpb
        have hba := huniq a (List.mem_cons_self _ _) b (List.mem_cons_of_mem _ hb) hpa hpb
        exact (List.nodup_cons.mp hnd).1 (hba ▸ hb)
      simp [hpa, ht]
    · have ih' := ih (List.nodup_cons.mp hnd).2
        fun x hx y hy => huniq x (List.mem_cons_of_mem _ hx) y (List.mem_cons_of_mem _ hy)
      rw [if_neg hpa]
      omega

/-- The first components of a zip form a sublist of the left list. -/
theorem map_fst_zip_sublist {α β : Type _} (l : List α) (l' : List β) :
    List.Sublist ((l.zip l').map Prod.fst) l := by
  induction l generalizing l' with
  | nil => exact List.nil_sublist _
  | cons a t ih =>
    cases l' with
    | nil => exact List.nil_sublist _
    | cons b t2 =>
      rw [List.zip_cons_cons, List.map_cons]
      exact List.Sublist.cons₂ _ (ih t2)

/-- The second components of a zip form a sublist of the right list. -/
theorem map_snd_zip_sublist {α β : Type _} (l : List α) (l' : List β) :
    List.Sublist ((l.zip l').map Prod.snd) l' := by
  induction l generalizing l' with
  | nil => exact List.nil_sublist _
  | cons a t ih =>
    cases l' with
    | nil => exact List.nil_sublist _
    | cons b t2 =>
      rw [List.zip_cons_cons, List.map_cons]
      exact List.Sublist.cons₂ _ (ih t2)

/-- A sum of per-key bounds over distinct keys is at most one. -/
theorem sum_map_ite_count {α : Type _} [DecidableEq α] (k : α) (cnt : α → Nat)
    (l : List α) (hbound : ∀ x ∈ l, cnt x ≤ if x = k then 1 else 0)
    (hnd : l.Nodup) : (l.map cnt).sum ≤ 1 := by
  induction l with
  | nil => simp
  | cons a t ih =>
    rw [List.map_cons, List.sum_cons]
    by_cases hak : a = k
    · subst hak
      have h0 : (t.map cnt).sum = 0 := by
        apply List.sum_eq_zero
        intro x hx
        rcases List.mem_map.mp hx with ⟨y, hy, rfl⟩
        have hya : ¬ y = a := fun hcontr => (List.nodup_cons.mp hnd).1 (hcontr ▸ hy)
        have hb := hbound y (List.mem_cons_of_mem _ hy)
        rw [if_neg hya] at hb
        exact Nat.le_zero.mp hb
      have h1 := hbound a (List.mem_cons_self _ _)
      rw [if_pos rfl] at h1
      omega
    · have h1 := hbound a (List.mem_cons_self _ _)
      rw [if_neg hak] at h1
      have h2 := ih (fun x hx => hbound x (List.mem_cons_of_mem _ hx))
        (List.nodup_cons.mp hnd).2
      omega

/-- Sorting a group of a duplicate-free frame keeps it duplicate-free. -/
theorem sortedGroup_nodup {df : List Transaction} {pid : String} (hnd : df.Nodup) :
    (sortedGroup df pid).Nodup :=
  (List.perm_insertionSort _ _).nodup_iff.mpr (hnd.filter _)

/-- Every row of a sorted group is a frame row of that property. -/
theorem sortedGroup_subset (df : List Transaction) (pid : String) :
    ∀ x ∈ sortedGroup df pid, x ∈ df ∧ x.property_id = pid := by
  intro x hx
  have h1 := (List.perm_insertionSort _ _).mem_iff.mp hx
  have h2 := List.mem_filter.mp h1
  exact ⟨h2.1, by simpa using h2.2⟩

/-- The property-group keys are distinct. -/
theorem propertyIds_nodup (df : List Transaction) : (propertyIds df).Nodup :=
  (List.perm_insertionSort _ _).nodup_iff.mpr (List.nodup_dedup _)

/-- Per-group bound: within one property group, at most one emitted flip
carries the buy-side fields of the probe transaction, and none at all when
the group key differs from its property. -/
theorem group_countP_buy_le (cfg : Config) (df : List Transaction) (pid : String)
    (hnd : df.Nodup)
    (hinj : ∀ t1 ∈ df, ∀ t2 ∈ df, buyProj t1 = buyProj t2 → t1 = t2)
    (t : Transaction) :
    ((((sortedGroup df pid).zip (sortedGroup df pid).tail).filterMap
        (flipOfPair cfg pid)).countP fun f => decide (flipBuyOf f = buyProj t)) ≤
      if pid = t.property_id then 1 else 0 := by
  by_cases hpid : pid = t.property_id
  · rw [if_pos hpid]
    refine le_trans (countP_filterMap_le_mem _ _
      (fun pr => decide (buyProj pr.1 = buyProj t)) _ ?_) ?_
    · rintro ⟨a, b⟩ hpr f hfp hmatch
      obtain ⟨_, hprop, hbuyp, _, hbdate, _, hbuyer, _, haddr, hcounty⟩ :=
        flipOfPair_some_inv hfp
      have ha : a ∈ sortedGroup df pid := (List.of_mem_zip hpr).1
      have hap : a.property_id = pid := (sortedGroup_subset df pid a ha).2
      rw [decide_eq_true_eq] at hmatch ⊢
      have hba : buyProj a = flipBuyOf f := by
        simp [buyProj, flipBuyOf, hap, hprop, hbuyp, hbdate, hbuyer, haddr, hcounty]
      rw [hba]
      exact hmatch
    · have step : (((sortedGroup df pid).zip (sortedGroup df pid).tail).countP
            fun pr => decide (buyProj pr.1 = buyProj t)) =
          ((((sortedGroup df pid).zip (sortedGroup df pid).tail).map Prod.fst).countP
            fun a => decide (buyProj a = buyProj t)) := by
        rw [List.countP_map]
        rfl
      rw [step]
      refine le_trans (List.Sublist.countP_le _ (map_fst_zip_sublist _ _)) ?_
      refine countP_le_one_of_nodup _ (sortedGroup_nodup hnd) ?_
      intro x hx y hy hpx hpy
      rw [decide_eq_true_eq] at hpx hpy
      exact hinj x (sortedGroup_subset df pid x hx).1 y
        (sortedGroup_subset df pid y hy).1 (hpx.trans hpy.symm)
  · rw [if_neg hpid]
    refine Nat.le_zero.mpr (List.countP_eq_zero.mpr ?_)
    intro f hf
    rcases List.mem_filterMap.mp hf with ⟨⟨a, b⟩, _, hfp⟩
    obtain ⟨_, hprop, _⟩ := flipOfPair_some_inv hfp
    rw [decide_eq_true_eq]
    intro heq
    have hfst : f.property_id = t.property_id := congrArg Prod.fst heq
    exact hpid (hprop ▸ hfst)

/-- Per-group bound for the sell side, as for `group_countP_buy_le`. -/
theorem group_countP_sell_le (cfg : Config) (df : List Transaction) (pid : String)
    (hnd : df.Nodup)
    (hinj : ∀ t1 ∈ df, ∀ t2 ∈ df, sellProj t1 = sellProj t2 → t1 = t2)
    (t : Transaction) :
    ((((sortedGroup df pid).zip (sortedGroup df pid).tail).filterMap
        (flipOfPair cfg pid)).countP fun f => decide (flipSellOf f = sellProj t)) ≤
      if pid = t.property_id then 1 else 0 := by
  by_cases hpid : pid = t.property_id
  · rw [if_pos hpid]
    refine le_trans (countP_filterMap_le_mem _ _
      (fun pr => decide (sellProj pr.2 = sellProj t)) _ ?_) ?_
    · rintro ⟨a, b⟩ hpr f hfp hmatch
      obtain ⟨_, hprop, _, hsellp, _, hsdate, _, hseller, _, _⟩ :=
        flipOfPair_some_inv hfp
      have hb : b ∈ sortedGroup df pid :=
        List.mem_of_mem_tail (List.of_mem_zip hpr).2
      have hbp : b.property_id = pid := (sortedGroup_subset df pid b hb).2
      rw [decide_eq_true_eq] at hmatch ⊢
      have hsb : sellProj b = flipSellOf f := by
        simp [sellProj, flipSellOf, hbp, hprop, hsellp, hsdate, hseller]
      rw [hsb]
      exact hmatch
    · have step : (((sortedGroup df pid).zip (sortedGroup df pid).tail).countP
            fun pr => decide (sellProj pr.2 = sellProj t)) =
          ((((sortedGroup df pid).zip (sortedGroup df pid).tail).map Prod.snd).countP
            fun a => decide (sellProj a = sellProj t)) := by
        rw [List.countP_map]
        rfl
      rw [step]
      refine le_trans (List.Sublist.countP_le _
        ((map_snd_zip_sublist _ _).trans (List.tail_sublist _))) ?_
      refine countP_le_one_of_nodup _ (sortedGroup_nodup hnd) ?_
      intro x hx y hy hpx hpy
      rw [decide_eq_true_eq] at hpx hpy
      exact hinj x (sortedGroup_subset df pid x hx).1 y
        (sortedGroup_subset df pid y hy).1 (hpx.trans hpy.symm)
  · rw [if_neg hpid]
    refine Nat.le_zero.mpr (List.countP_eq_zero.mpr ?_)
    intro f hf
    rcases List.mem_filterMap.mp hf with ⟨⟨a, b⟩, _, hfp⟩
    obtain ⟨_, hprop, _⟩ := flipOfPair_some_inv hfp
    rw [decide_eq_true_eq]
    intro heq
    have hfst : f.property_id = t.property_id := congrArg Prod.fst heq
    exact hpid (hprop ▸ hfst)

/-- Claim C10.  When the frame has no duplicate rows and transactions are
distinguishable by the fields a flip copies from them, every input
transaction appears as the buy side of at most one emitted flip and as the
sell side of at most one emitted flip: within each property's date-sorted
group only consecutive positions are ever paired, so a position is a buy in
at most one visited pair and a sell in at most one. -/
theorem C10_each_side_at_most_once (cfg : Config) (df : List Transaction)
    (hnd : df.Nodup)
    (hbuy : ∀ t1 ∈ df, ∀ t2 ∈ df, buyProj t1 = buyProj t2 → t1 = t2)
    (hsell : ∀ t1 ∈ df, ∀ t2 ∈ df, sellProj t1 = sellProj t2 → t1 = t2)
    (t : Transaction) :
    ((identify_flips cfg df).countP fun f => decide (flipBuyOf f = buyProj t)) ≤ 1 ∧
      ((identify_flips cfg df).countP fun f => decide (flipSellOf f = sellProj t)) ≤ 1 := by
  constructor
  · rw [identify_flips_eq, List.countP_flatMap]
    exact sum_map_ite_count t.property_id _ _
      (fun pid _ => group_countP_buy_le cfg df pid hnd hbuy t)
      (propertyIds_nodup df)
  · rw [identify_flips_eq, List.countP_flatMap]
    exact sum_map_ite_count t.property_id _ _
      (fun pid _ => group_countP_sell_le cfg df pid hnd hsell t)
      (propertyIds_nodup df)

/-- Witness for C10: three chained sales of one property yield two flips,
and the middle transaction is the sell side of the first and the buy side of
the second — each side at most once. -/
theorem C10_witness :
    (identify_flips defaultConfig [u0C10, u1C10, u2C10]).length = 2 ∧
      ((identify_flips defaultConfig [u0C10, u1C10, u2C10]).countP
        fun f => decide (flipBuyOf f = buyProj u1C10)) ≤ 1 ∧
      ((identify_flips defaultConfig [u0C10, u1C10, u2C10]).countP
        fun f => decide (flipSellOf f = sellProj u1C10)) ≤ 1 :=
  ⟨by decide,
   C10_each_side_at_most_once defaultConfig [u0C10, u1C10, u2C10]
     (by decide) (by decide) (by decide) u1C10⟩

end GHFD
